import Mathlib

/-!
Shallow embedding of the `async-odoors` Odoo JSON-RPC client
(`src/odoo.rs`), covering the session state machine, the request/response
envelope construction, and the nullable-field deserialization adapter.

JSON values are modelled by the inductive `Json`; serde decoders for a
target type `E` are modelled as functions `Json → Except String E`; the
HTTP transport (`reqwest`) is modelled as an explicit function parameter
`net : String → Request → Except String Json` mapping a URL and a request
body to either a transport-level failure message or the parsed JSON
response body.  A Rust panic (`Option::unwrap` on `None`) is modelled by
the dedicated `Outcome.panic` constructor.
-/

/-- JSON values (the model of `serde_json::Value`).  Numbers are modelled
as integers: every number this client ever puts in a request is a `u32`
or comes back as one. -/
inductive Json where
  | null : Json
  | bool : Bool → Json
  | num : Int → Json
  | str : String → Json
  | arr : List Json → Json
  | obj : List (String × Json) → Json
deriving Repr

/-- First value bound to `k` in an association list (serde-style object
field lookup). -/
def jlookup (kvs : List (String × Json)) (k : String) : Option Json :=
  (kvs.find? (fun p => p.1 == k)).map (fun p => p.2)

/-- The serde string decoder: succeeds exactly on JSON strings.  Used to
instantiate the nullable adapter at a non-boolean target type. -/
def decodeString : Json → Except String String
  | .str s => .ok s
  | _ => .error "expected string"

/-- The serde `u32` decoder: succeeds exactly on integer JSON numbers in
`[0, 2^32)`.  `login` decodes its `Response<u32>` result with this. -/
def decodeU32 : Json → Except String Nat
  | .num n => if 0 ≤ n ∧ n < 4294967296 then .ok n.toNat else .error "invalid u32"
  | _ => .error "expected u32"

/-- The serde `HashMap<String, String>` decoder used by `start`. -/
def decodeStringMap : Json → Except String (List (String × String))
  | .obj kvs => kvs.mapM (fun p => (decodeString p.2).map (fun s => (p.1, s)))
  | _ => .error "expected map"

/-- Embedding of `deserialize_odoo_nullable` (src/odoo.rs): run the
standard decoder for the target type `E`; wrap a success in `some`, turn
any decode failure into `none`, and never fail itself. -/
def deserialize_odoo_nullable {E : Type} (dec : Json → Except String E)
    (v : Json) : Except String (Option E) :=
  match dec v with
  | .ok e => .ok (some e)
  | .error _ => .ok none

/-- Modelled from the spec: the request envelope (`crate::api::Request`,
whose source file is absent from src/).  Wire format
`{"service": string, "method": string|null, "params": array, "id": integer}`;
`params` is the positional argument array obtained by serializing the
Rust argument tuple in order (the unit tuple `()` gives the empty array). -/
structure Request where
  service : String
  method : Option String
  params : List Json
  id : Nat
deriving Repr

/-- Modelled from the spec: `Request::new` (api.rs is absent from src/).
The correlation id is not semantically significant and is modelled as the
constant 1. -/
def Request.new (service : String) (method : Option String)
    (params : List Json) : Request :=
  ⟨service, method, params, 1⟩

/-- Errors surfaced to the caller, by kind.  `transport` models a
`reqwest` connection/HTTP/JSON-parsing failure, `remote` models a
response envelope whose `error` field is present (carrying the
server-provided error value verbatim), `decode` models a failure to
coerce the `result` payload into the caller's declared type.  The code
wraps these into `crate::error::Error` strings (error.rs is absent from
src/); the kinds follow the spec's error taxonomy. -/
inductive RpcError where
  | transport : String → RpcError
  | remote : Json → RpcError
  | decode : String → RpcError
deriving Repr

/-- Modelled from the spec: decoding the response envelope
(`crate::api::Response`, whose source file is absent from src/).  Wire
format `{"result": any, "error": {...}|absent}`: an `error` field present
surfaces as a RemoteError carrying the server-provided value verbatim;
otherwise the `result` payload is extracted. -/
def decodeResponse (body : Json) : Except RpcError Json :=
  match body with
  | .obj kvs =>
    match jlookup kvs "error" with
    | some e => .error (.remote e)
    | none =>
      match jlookup kvs "result" with
      | some r => .ok r
      | none => .error (.decode "missing result")
  | _ => .error (.decode "expected response object")

/-- Embedding of the `Odoo` session struct (src/odoo.rs): connection
target plus authentication state. -/
structure Odoo where
  host : String
  database : String
  uid : Option Nat
  password : Option String
deriving Repr, DecidableEq

/-- Embedding of `Odoo::new`: pure construction, unauthenticated. -/
def Odoo.new (host database : String) : Odoo :=
  ⟨host, database, none, none⟩

/-- Serialization of the `Option<u32>` uid field inside a positional
params tuple (serde: `None` becomes JSON null, `Some n` a number). -/
def optNat : Option Nat → Json
  | none => .null
  | some n => .num n

/-- The URL `send` posts to: `format!("{}/{}", self.host, url.unwrap_or("jsonrpc"))`. -/
def Odoo.sendUrl (o : Odoo) (url : Option String) : String :=
  o.host ++ "/" ++ url.getD "jsonrpc"

/-- Embedding of `Odoo::send`: serialize the envelope, POST it to
`sendUrl`, parse the body as a `Response` envelope, and decode the result
payload with the caller's decoder `dec` (the `U` of `Response<U>`).
Transport failures (modelled inside `net`) become `RpcError.transport`. -/
def Odoo.send {α : Type} (o : Odoo) (request : Request) (url : Option String)
    (net : String → Request → Except String Json)
    (dec : Json → Except String α) : Except RpcError α :=
  match net (o.sendUrl url) request with
  | .error msg => .error (.transport msg)
  | .ok body =>
    match decodeResponse body with
    | .error e => .error e
    | .ok result =>
      match dec result with
      | .error msg => .error (.decode msg)
      | .ok a => .ok a

/-- The envelope built by `Odoo::login`: service "common", method
"authenticate", params `(database, login, password, "")`. -/
def Odoo.loginRequest (o : Odoo) (login password : String) : Request :=
  Request.new "common" (some "authenticate")
    [.str o.database, .str login, .str password, .str ""]

/-- Embedding of `Odoo::login` (`&mut self`): returns the session state
after the call together with the result.  State is mutated (uid and
password stored) only after `send` has succeeded. -/
def Odoo.login (o : Odoo) (login password : String)
    (net : String → Request → Except String Json) :
    Odoo × Except RpcError Nat :=
  match o.send (o.loginRequest login password) none net decodeU32 with
  | .error e => (o, .error e)
  | .ok uid => ({ o with uid := some uid, password := some password }, .ok uid)

/-- Embedding of `Odoo::new_and_login`: `new` then `login`; on login
failure the partially-constructed session is discarded. -/
def Odoo.new_and_login (host database login password : String)
    (net : String → Request → Except String Json) : Except RpcError Odoo :=
  match (Odoo.new host database).login login password net with
  | (o, .ok _) => .ok o
  | (_, .error e) => .error e

/-- The envelope built by `Odoo::start`: service "common", method
"start", no arguments. -/
def startRequest : Request :=
  Request.new "common" (some "start") []

/-- Embedding of `Odoo::start` (`&self`): discovery call sent to the
distinct "start" path; the session state is returned unchanged. -/
def Odoo.start (o : Odoo)
    (net : String → Request → Except String Json) :
    Odoo × Except RpcError (List (String × String)) :=
  (o, o.send startRequest (some "start") net decodeStringMap)

/-- Outcome of a Rust method that may panic: `panic` models
`Option::unwrap` on `None`, `err` an `Err` return, `ok` an `Ok` return. -/
inductive Outcome (α : Type) where
  | panic : Outcome α
  | err : RpcError → Outcome α
  | ok : α → Outcome α
deriving Repr

/-- The envelope built by `Odoo::call`, when one is built at all:
`self.password.as_ref().unwrap()` runs first, so with no stored
credential the method panics (`none`) before any envelope exists.
Params are `(database, uid, password, model, method, args)` with
service "object" and a null envelope-level method. -/
def Odoo.callRequest (o : Odoo) (model method : String) (args : Json) :
    Option Request :=
  match o.password with
  | none => none
  | some pw =>
    some (Request.new "object" none
      [.str o.database, optNat o.uid, .str pw, .str model, .str method, args])

/-- Embedding of `Odoo::call` (`&self`): unwrap the credential (panic if
absent), build the envelope, send it on the default path. -/
def Odoo.call (o : Odoo) (model method : String) (args : Json)
    (net : String → Request → Except String Json) : Odoo × Outcome Json :=
  (o, match o.callRequest model method args with
      | none => .panic
      | some request =>
        match o.send request none net .ok with
        | .error e => .err e
        | .ok r => .ok r)

/-- The trailing options object built by `Odoo::search_read`: a "fields"
key always (defaulting to the empty list), a "limit"/"offset" key exactly
when the corresponding argument is provided.  Keys are inserted in the
order fields, limit, offset (also their `serde_json::Map` sorted order). -/
def searchReadValues (fields : Option (List String))
    (limit offset : Option Nat) : List (String × Json) :=
  [("fields", Json.arr ((fields.getD []).map Json.str))]
  ++ (match limit with
      | some l => [("limit", Json.num l)]
      | none => [])
  ++ (match offset with
      | some v => [("offset", Json.num v)]
      | none => [])

/-- The envelope built by `Odoo::search_read`, when one is built at all
(the credential unwrap panics first on an unauthenticated session):
params are `(database, uid, password, model, "search_read", [domain],
options)` with service "object" and a null envelope-level method. -/
def Odoo.searchReadRequest (o : Odoo) (model : String) (domain : Json)
    (fields : Option (List String)) (limit offset : Option Nat) :
    Option Request :=
  match o.password with
  | none => none
  | some pw =>
    some (Request.new "object" none
      [.str o.database, optNat o.uid, .str pw, .str model, .str "search_read",
       .arr [domain], .obj (searchReadValues fields limit offset)])

/-- Embedding of `Odoo::search_read` (`&self`). -/
def Odoo.search_read (o : Odoo) (model : String) (domain : Json)
    (fields : Option (List String)) (limit offset : Option Nat)
    (net : String → Request → Except String Json) : Odoo × Outcome Json :=
  (o, match o.searchReadRequest model domain fields limit offset with
      | none => .panic
      | some request =>
        match o.send request none net .ok with
        | .error e => .err e
        | .ok r => .ok r)

/-- Sessions reachable through the public constructors and operations. -/
inductive Reachable : Odoo → Prop where
  | new (host database : String) : Reachable (Odoo.new host database)
  | new_and_login (host database login password : String)
      (net : String → Request → Except String Json) (o : Odoo) :
      Odoo.new_and_login host database login password net = .ok o →
      Reachable o
  | login (o : Odoo) (l p : String)
      (net : String → Request → Except String Json) :
      Reachable o → Reachable (o.login l p net).1
  | start (o : Odoo) (net : String → Request → Except String Json) :
      Reachable o → Reachable (o.start net).1
  | call (o : Odoo) (model method : String) (args : Json)
      (net : String → Request → Except String Json) :
      Reachable o → Reachable (o.call model method args net).1
  | search_read (o : Odoo) (model : String) (domain : Json)
      (fields : Option (List String)) (limit offset : Option Nat)
      (net : String → Request → Except String Json) :
      Reachable o → Reachable (o.search_read model domain fields limit offset net).1

/-- A transport that always fails (connection refused). -/
def netFail : String → Request → Except String Json :=
  fun _ _ => .error "connection refused"

/-- A transport that always answers with the given body. -/
def netConst (body : Json) : String → Request → Except String Json :=
  fun _ _ => .ok body

/-- The claim's notion of "fails with an (Unauthenticated) error": the
call returns a typed error to the caller.  Stated from the spec's words,
for comparison with what the code does. -/
def specFailsWithErr {α : Type} (r : Outcome α) : Prop :=
  ∃ e : RpcError, r = Outcome.err e

/-! Helper lemmas (shared). -/

/-- After `login` the session is either unchanged (failure path) or has
both uid and password freshly stored (success path). -/
theorem login_state_cases (o : Odoo) (l p : String)
    (net : String → Request → Except String Json) :
    (o.login l p net).1 = o ∨
    ∃ u, (o.login l p net).1 = { o with uid := some u, password := some p } := by
  unfold Odoo.login
  cases h : o.send (o.loginRequest l p) none net decodeU32 <;> simp

/-- A session returned by `new_and_login` is the result of a successful
`login` on a fresh session. -/
theorem new_and_login_ok (host database l p : String)
    (net : String → Request → Except String Json) (o : Odoo) :
    Odoo.new_and_login host database l p net = .ok o →
    ∃ u, o = { Odoo.new host database with uid := some u, password := some p } := by
  unfold Odoo.new_and_login Odoo.login
  cases h : (Odoo.new host database).send
      ((Odoo.new host database).loginRequest l p) none net decodeU32 <;>
    simp
  intro ho
  exact ⟨_, ho.symm⟩

/-! Claim theorems. -/

/-- C2: the nullable adapter wraps a successful standard decode in
"present", turns any decode failure into "absent" rather than an error,
never itself produces a decode error, and in particular maps JSON `false`
to "absent" and a correct-type value to "present" for a string-typed
field. -/
theorem c2_nullable_adapter {E : Type} (dec : Json → Except String E) (v : Json) :
    (∀ e, dec v = .ok e → deserialize_odoo_nullable dec v = .ok (some e)) ∧
    (∀ msg, dec v = .error msg → deserialize_odoo_nullable dec v = .ok none) ∧
    (∀ msg, deserialize_odoo_nullable dec v ≠ .error msg) ∧
    deserialize_odoo_nullable decodeString (Json.bool false) = .ok none ∧
    (∀ s, deserialize_odoo_nullable decodeString (Json.str s) = .ok (some s)) := by
  refine ⟨?_, ?_, ?_, rfl, fun s => rfl⟩
  · intro e h; simp [deserialize_odoo_nullable, h]
  · intro msg h; simp [deserialize_odoo_nullable, h]
  · intro msg h
    unfold deserialize_odoo_nullable at h
    cases hd : dec v <;> rw [hd] at h <;> exact Except.noConfusion h

theorem c2_nullable_adapter_witness :
    deserialize_odoo_nullable decodeString (Json.bool false) = .ok none ∧
    deserialize_odoo_nullable decodeString (Json.str "ABC") = .ok (some "ABC") :=
  ⟨(c2_nullable_adapter decodeString (Json.bool false)).2.1 "expected string" rfl,
   (c2_nullable_adapter decodeString (Json.str "ABC")).1 "ABC" rfl⟩

/-- C3: `login` mutates the session only on success — on any failure the
session (in particular uid and password) is exactly as before, and on
success uid and password are stored in the same step. -/
theorem c3_login_mutates_only_on_success (o : Odoo) (l p : String)
    (net : String → Request → Except String Json) :
    (∀ e, (o.login l p net).2 = .error e → (o.login l p net).1 = o) ∧
    (∀ uid, (o.login l p net).2 = .ok uid →
      (o.login l p net).1 = { o with uid := some uid, password := some p }) := by
  unfold Odoo.login
  cases h : o.send (o.loginRequest l p) none net decodeU32 <;> simp

theorem c3_login_mutates_only_on_success_witness :
    ((Odoo.new "https://demo.odoo.com" "db").login "admin" "admin" netFail).1
      = Odoo.new "https://demo.odoo.com" "db" :=
  (c3_login_mutates_only_on_success (Odoo.new "https://demo.odoo.com" "db")
      "admin" "admin" netFail).1 (.transport "connection refused") rfl

/-- C6: on an authenticated session, `call` builds the envelope with
service "object", a null envelope-level method, and positional params
exactly (database, userId, credential, model, method, args), the method
name travelling as the 5th positional parameter. -/
theorem c6_call_envelope (o : Odoo) (u : Nat) (pw model method : String)
    (args : Json) (hu : o.uid = some u) (hp : o.password = some pw) :
    o.callRequest model method args =
      some { service := "object", method := none,
             params := [.str o.database, .num u, .str pw, .str model,
                        .str method, args],
             id := 1 } := by
  simp [Odoo.callRequest, hp, hu, Request.new, optNat]

theorem c6_call_envelope_witness :
    (Odoo.mk "h" "db" (some 2) (some "pw")).callRequest "res.partner" "read"
        (Json.arr []) =
      some { service := "object", method := none,
             params := [.str "db", .num 2, .str "pw", .str "res.partner",
                        .str "read", .arr []],
             id := 1 } :=
  c6_call_envelope (Odoo.mk "h" "db" (some 2) (some "pw")) 2 "pw"
    "res.partner" "read" (Json.arr []) rfl rfl

/-- C7: `login` builds the envelope with service "common", method
"authenticate" and positional params exactly (database, login, password,
""); on success it stores the returned id as userId and the given
password as credential, and returns the id. -/
theorem c7_login_envelope_and_success (o : Odoo) (l p : String)
    (net : String → Request → Except String Json) (uid : Nat) :
    o.loginRequest l p =
      { service := "common", method := some "authenticate",
        params := [.str o.database, .str l, .str p, .str ""], id := 1 } ∧
    (o.send (o.loginRequest l p) none net decodeU32 = .ok uid →
      o.login l p net = ({ o with uid := some uid, password := some p }, .ok uid)) := by
  refine ⟨rfl, fun h => ?_⟩
  unfold Odoo.login
  rw [h]

theorem c7_login_envelope_and_success_witness :
    (Odoo.new "h" "db").login "admin" "secret"
        (netConst (Json.obj [("result", Json.num 7)])) =
      (⟨"h", "db", some 7, some "secret"⟩, .ok 7) :=
  (c7_login_envelope_and_success (Odoo.new "h" "db") "admin" "secret"
      (netConst (Json.obj [("result", Json.num 7)])) 7).2 rfl

/-- C9: `call`, `search_read` and `start` take the session by shared
reference and leave every session field unchanged. -/
theorem c9_readonly_operations (o : Odoo) (model method : String)
    (args domain : Json) (fields : Option (List String))
    (limit offset : Option Nat)
    (net : String → Request → Except String Json) :
    (o.call model method args net).1 = o ∧
    (o.search_read model domain fields limit offset net).1 = o ∧
    (o.start net).1 = o :=
  ⟨rfl, rfl, rfl⟩

/-- C1 counterexample: on a session with no stored credential, `call`
does not fail with a typed (Unauthenticated) error — the credential
unwrap panics instead. -/
theorem c1_counterexample :
    ¬ specFailsWithErr ((Odoo.new "https://demo.odoo.com" "db").call
        "res.partner" "read" (Json.arr []) netFail).2 := by
  rintro ⟨e, h⟩
  have hp : ((Odoo.new "https://demo.odoo.com" "db").call
      "res.partner" "read" (Json.arr []) netFail).2 = Outcome.panic := rfl
  rw [hp] at h
  exact Outcome.noConfusion h

/-- C1 (amended): on a session with no stored credential, `call` and
`search_read` panic immediately on the credential unwrap, detected
locally: no request envelope is built, and the result does not depend on
the transport, so nothing is sent. -/
theorem c1_unauthenticated_panics (o : Odoo) (hp : o.password = none)
    (model method : String) (args domain : Json)
    (fields : Option (List String)) (limit offset : Option Nat)
    (net : String → Request → Except String Json) :
    (o.call model method args net).2 = .panic ∧
    o.callRequest model method args = none ∧
    (o.search_read model domain fields limit offset net).2 = .panic ∧
    o.searchReadRequest model domain fields limit offset = none := by
  refine ⟨?_, ?_, ?_, ?_⟩ <;>
    simp [Odoo.call, Odoo.search_read, Odoo.callRequest, Odoo.searchReadRequest, hp]

theorem c1_unauthenticated_panics_witness :
    ((Odoo.new "h" "db").call "res.partner" "read" (Json.arr []) netFail).2
      = .panic ∧
    (Odoo.new "h" "db").callRequest "res.partner" "read" (Json.arr []) = none ∧
    ((Odoo.new "h" "db").search_read "res.partner" (Json.arr []) none none none
        netFail).2 = .panic ∧
    (Odoo.new "h" "db").searchReadRequest "res.partner" (Json.arr [])
        none none none = none :=
  c1_unauthenticated_panics (Odoo.new "h" "db") rfl "res.partner" "read"
    (Json.arr []) (Json.arr []) none none none netFail

/-- C4: in the `search_read` options object, an omitted `fields` is
replaced by the empty list; the "limit" and "offset" keys are present
exactly when the corresponding argument is provided, carrying the given
integer, and entirely absent (not null) otherwise; the options object is
the trailing element of the request params. -/
theorem c4_search_read_options (o : Odoo) (pw model : String) (domain : Json)
    (fields : Option (List String)) (limit offset : Option Nat)
    (hp : o.password = some pw) :
    searchReadValues none limit offset = searchReadValues (some []) limit offset ∧
    jlookup (searchReadValues fields limit offset) "fields" =
      some (Json.arr ((fields.getD []).map Json.str)) ∧
    jlookup (searchReadValues fields limit offset) "limit" =
      Option.map (fun l => Json.num l) limit ∧
    jlookup (searchReadValues fields limit offset) "offset" =
      Option.map (fun v => Json.num v) offset ∧
    o.searchReadRequest model domain fields limit offset =
      some (Request.new "object" none
        [.str o.database, optNat o.uid, .str pw, .str model, .str "search_read",
         .arr [domain], .obj (searchReadValues fields limit offset)]) := by
  refine ⟨rfl, rfl, ?_, ?_, by simp [Odoo.searchReadRequest, hp]⟩ <;>
    cases limit <;> cases offset <;> rfl

theorem c4_search_read_options_witness :
    jlookup (searchReadValues none (some 5) none) "limit" = some (Json.num 5) ∧
    jlookup (searchReadValues none (some 5) none) "offset" = none ∧
    (Odoo.mk "h" "db" (some 2) (some "pw")).searchReadRequest "res.partner"
        (Json.arr []) none (some 5) none =
      some (Request.new "object" none
        [.str "db", optNat (some 2), .str "pw", .str "res.partner",
         .str "search_read", .arr [.arr []],
         .obj (searchReadValues none (some 5) none)]) :=
  ⟨(c4_search_read_options (Odoo.mk "h" "db" (some 2) (some "pw")) "pw"
      "res.partner" (Json.arr []) none (some 5) none rfl).2.2.1,
   (c4_search_read_options (Odoo.mk "h" "db" (some 2) (some "pw")) "pw"
      "res.partner" (Json.arr []) none (some 5) none rfl).2.2.2.1,
   (c4_search_read_options (Odoo.mk "h" "db" (some 2) (some "pw")) "pw"
      "res.partner" (Json.arr []) none (some 5) none rfl).2.2.2.2⟩

/-- C5: `send` surfaces a transport failure as a TransportError carrying
the transport's message, and a response whose envelope has its error
field present as a RemoteError carrying the server-provided error value
verbatim. -/
theorem c5_send_errors {α : Type} (o : Odoo) (request : Request)
    (url : Option String) (net : String → Request → Except String Json)
    (dec : Json → Except String α) :
    (∀ msg, net (o.sendUrl url) request = .error msg →
      o.send request url net dec = .error (.transport msg)) ∧
    (∀ kvs e, net (o.sendUrl url) request = .ok (.obj kvs) →
      jlookup kvs "error" = some e →
      o.send request url net dec = .error (.remote e)) := by
  constructor
  · intro msg h; simp [Odoo.send, h]
  · intro kvs e h he; simp [Odoo.send, h, decodeResponse, he]

theorem c5_send_errors_witness :
    (Odoo.new "h" "db").send startRequest none netFail decodeU32 =
      .error (.transport "connection refused") ∧
    (Odoo.new "h" "db").send startRequest none
        (netConst (Json.obj [("error", Json.str "boom")])) decodeU32 =
      .error (.remote (Json.str "boom")) :=
  ⟨(c5_send_errors (Odoo.new "h" "db") startRequest none netFail decodeU32).1
      "connection refused" rfl,
   (c5_send_errors (Odoo.new "h" "db") startRequest none
      (netConst (Json.obj [("error", Json.str "boom")])) decodeU32).2
      [("error", Json.str "boom")] (Json.str "boom") rfl rfl⟩

/-- C8: the posted URL is `{host}/{overridePath or "jsonrpc"}`; exactly
two suffixes arise: the default "jsonrpc" path, on which `call`, `login`
and `search_read` depend exclusively, and the distinct "start" path used
only by `start`, whose envelope is the no-argument request with service
"common" and method "start". -/
theorem c8_endpoints (o : Odoo) (model method l p : String) (args domain : Json)
    (fields : Option (List String)) (limit offset : Option Nat)
    (net₁ net₂ : String → Request → Except String Json) :
    o.sendUrl none = o.host ++ "/jsonrpc" ∧
    o.sendUrl (some "start") = o.host ++ "/start" ∧
    startRequest = { service := "common", method := some "start",
                     params := [], id := 1 } ∧
    (net₁ (o.sendUrl (some "start")) startRequest =
        net₂ (o.sendUrl (some "start")) startRequest →
      o.start net₁ = o.start net₂) ∧
    ((∀ r, net₁ (o.sendUrl none) r = net₂ (o.sendUrl none) r) →
      o.call model method args net₁ = o.call model method args net₂ ∧
      o.login l p net₁ = o.login l p net₂ ∧
      o.search_read model domain fields limit offset net₁ =
        o.search_read model domain fields limit offset net₂) := by
  refine ⟨?_, ?_, rfl, ?_, ?_⟩
  · show o.host ++ "/" ++ "jsonrpc" = o.host ++ "/jsonrpc"
    rw [String.append_assoc]; rfl
  · show o.host ++ "/" ++ "start" = o.host ++ "/start"
    rw [String.append_assoc]; rfl
  · intro h
    simp [Odoo.start, Odoo.send, h]
  · intro h
    refine ⟨?_, ?_, ?_⟩ <;> simp [Odoo.call, Odoo.login, Odoo.search_read, Odoo.send, h]

theorem c8_endpoints_witness :
    (Odoo.new "h" "db").sendUrl (some "start") = "h" ++ "/start" ∧
    (Odoo.new "h" "db").start netFail = (Odoo.new "h" "db").start netFail ∧
    (Odoo.new "h" "db").call "res.partner" "read" (Json.arr []) netFail =
      (Odoo.new "h" "db").call "res.partner" "read" (Json.arr []) netFail :=
  ⟨(c8_endpoints (Odoo.new "h" "db") "res.partner" "read" "l" "p"
      (Json.arr []) (Json.arr []) none none none netFail netFail).2.1,
   (c8_endpoints (Odoo.new "h" "db") "res.partner" "read" "l" "p"
      (Json.arr []) (Json.arr []) none none none netFail netFail).2.2.2.1 rfl,
   ((c8_endpoints (Odoo.new "h" "db") "res.partner" "read" "l" "p"
      (Json.arr []) (Json.arr []) none none none netFail netFail).2.2.2.2
      (fun _ => rfl)).1⟩

/-- C10: every session reachable through the public constructors and
operations has userId present exactly when credential is present: `new`
creates both absent and a successful `login` sets both in one step. -/
theorem c10_auth_invariant (o : Odoo) (h : Reachable o) :
    o.uid.isSome ↔ o.password.isSome := by
  induction h with
  | new host database => simp [Odoo.new]
  | new_and_login host database l p net o h =>
    obtain ⟨u, rfl⟩ := new_and_login_ok host database l p net o h
    simp [Odoo.new]
  | login o l p net _ ih =>
    rcases login_state_cases o l p net with h | ⟨u, h⟩ <;> rw [h]
    · exact ih
    · simp
  | start o net _ ih => exact ih
  | call o model method args net _ ih => exact ih
  | search_read o model domain fields limit offset net _ ih => exact ih

theorem c10_auth_invariant_witness :
    ((Odoo.new "h" "db").uid.isSome ↔ (Odoo.new "h" "db").password.isSome) :=
  c10_auth_invariant (Odoo.new "h" "db") (Reachable.new "h" "db")
